import Mathlib

/-!
Verification of the payment-confirmation and resource-access core of the
Web-Foundations subscription backend.

The development shallowly embeds the JavaScript sources:
* `backend/config/plans.js` — the plan catalog and price validator;
* `backend/models/user.js` — the in-memory stores (`subscriptions`, `payments`,
  `auditLog`) and their operations;
* `backend/routes/payment.js` — the Payoneer IPN signature verifier, the four
  notification handlers, and the webhook endpoint;
* `backend/routes/articles.js` together with `backend/middleware/auth.js` —
  the protected-download pipeline.

Modelling conventions:
* JavaScript strings stay `String`; a field that may be `undefined` is an
  `Option String`, and `none` plays the role of `undefined` (in particular
  JavaScript `undefined === undefined` is `true`, matching `none = none`).
* The stores are insertion-ordered association lists, matching iteration
  order of the JavaScript `Map`s and of the `auditLog` array.
* `Math.random()`-generated record ids are modelled by a fresh-id counter
  carried in the store; ids are assumed collision-free.
* Wall-clock instants are abstract naturals `now`; `expiresAt` is
  `now + plan.duration_days` in those abstract units.
-/

/-- The JavaScript truthiness test `!x` on a possibly-undefined string:
falsy exactly when the value is `undefined` or the empty string. -/
def jsFalsy (o : Option String) : Bool :=
  o.isNone || o == some ""

/-- One subscription plan from `backend/config/plans.js`. -/
structure Plan where
  id : String
  name : String
  price : Nat
  currency : String
  articles_limit : Int
  duration_days : Nat
deriving Repr, DecidableEq

/-- The plan catalog `SUBSCRIPTION_PLANS` of `backend/config/plans.js`
(feature lists omitted: no analysed code reads them). -/
def SUBSCRIPTION_PLANS : List Plan :=
  [ { id := "starter", name := "Starter", price := 9800, currency := "usd",
      articles_limit := 10, duration_days := 30 },
    { id := "professional", name := "Professional", price := 49800, currency := "usd",
      articles_limit := 50, duration_days := 30 },
    { id := "unlimited", name := "Unlimited Annual", price := 99800, currency := "usd",
      articles_limit := -1, duration_days := 365 } ]

/-- The catalog lookup `getPlan` of `plans.js`; `SUBSCRIPTION_PLANS[planId] || null`.
The argument is optional because the handlers can pass an undefined field. -/
def getPlan (planId : Option String) : Option Plan :=
  SUBSCRIPTION_PLANS.find? (fun p => some p.id == planId)

/-- The price validator `validatePlanPrice` of `plans.js`:
`Math.abs(plan.price - amountCents) <= 1` after a `getPlan` lookup. -/
def validatePlanPrice (planId : Option String) (amountCents : Int) : Bool :=
  match getPlan planId with
  | none => false
  | some plan => ((plan.price : Int) - amountCents).natAbs ≤ 1

/-- One record of the `payments` store of `backend/models/user.js`. -/
structure Payment where
  id : String
  user_id : Option String
  plan_id : Option String
  stripe_payment_intent_id : String
  amount : Nat
  status : String
  created_at : Nat
  updated_at : Nat
deriving Repr, DecidableEq

/-- One record of the `subscriptions` store of `backend/models/user.js`. -/
structure Subscription where
  id : String
  user_id : Option String
  plan_id : Option String
  stripe_subscription_id : Option String
  status : String
  expires_at : Nat
  created_at : Nat
  updated_at : Nat
deriving Repr, DecidableEq

/-- One entry of the `auditLog` array of `backend/models/user.js`; the
`details` payload is rendered as key/value pairs. -/
structure AuditEntry where
  id : String
  user_id : Option String
  action : String
  details : List (String × String)
  ip : String
  timestamp : Nat
deriving Repr, DecidableEq

/-- The whole in-memory database of `backend/models/user.js` (the `users`
map is not touched by any analysed code path and is omitted), together
with the fresh-id counter that models `Math.random().toString(36)`. -/
structure Store where
  subscriptions : List Subscription
  payments : List Payment
  auditLog : List AuditEntry
  nextId : Nat
deriving Repr, DecidableEq

/-- The empty initial database. -/
def emptyStore : Store :=
  { subscriptions := [], payments := [], auditLog := [], nextId := 0 }

/-- Fresh record id, modelling `Math.random().toString(36).substring(7)`. -/
def Store.genId (st : Store) : String × Store :=
  (toString st.nextId, { st with nextId := st.nextId + 1 })

/-- Rendering of a possibly-undefined string inside an audit `details`
payload, matching JavaScript string conversion of `undefined`. -/
def optStr (o : Option String) : String :=
  o.getD "undefined"

/-- The operation `db.audit.log(userId, action, details)` of `user.js`:
appends one entry; `ip` is `details.ip || 'unknown'`. -/
def audit_log (st : Store) (userId : Option String) (action : String)
    (details : List (String × String)) (now : Nat) : Store :=
  let (id, st') := st.genId
  let ip := ((details.find? (fun kv => kv.1 == "ip")).map (fun kv => kv.2)).getD "unknown"
  { st' with auditLog := st'.auditLog ++
      [{ id := id, user_id := userId, action := action, details := details,
         ip := ip, timestamp := now }] }

/-- The operation `db.payments.findByStripeId(tok)` of `user.js`: first
payment (in insertion order) whose token field strictly equals `tok`. -/
def payments_findByStripeId (st : Store) (tok : Option String) : Option Payment :=
  st.payments.find? (fun p => some p.stripe_payment_intent_id == tok)

/-- The status-rewriting function applied by `db.payments.updateStatus`. -/
def setPaymentStatus (paymentId newStatus : String) (now : Nat) (p : Payment) : Payment :=
  if p.id == paymentId then { p with status := newStatus, updated_at := now } else p

/-- The operation `db.payments.updateStatus(paymentId, status)` of `user.js`:
if a record with that id exists, overwrite its status unconditionally and
return it; otherwise return `null` and change nothing. -/
def payments_updateStatus (st : Store) (paymentId newStatus : String) (now : Nat) :
    Store × Option Payment :=
  match st.payments.find? (fun p => p.id == paymentId) with
  | none => (st, none)
  | some p =>
    ({ st with payments := st.payments.map (setPaymentStatus paymentId newStatus now) },
     some (setPaymentStatus paymentId newStatus now p))

/-- The operation `db.subscriptions.create(userId, planId, token, expiresAt)`
of `user.js`: appends a record with status `"active"`. -/
def subscriptions_create (st : Store) (userId planId tok : Option String)
    (expiresAt now : Nat) : Subscription × Store :=
  let (id, st') := st.genId
  let sub : Subscription :=
    { id := id, user_id := userId, plan_id := planId, stripe_subscription_id := tok,
      status := "active", expires_at := expiresAt, created_at := now, updated_at := now }
  (sub, { st' with subscriptions := st'.subscriptions ++ [sub] })

/-- The operation `db.subscriptions.findByUserId(userId)` of `user.js`. -/
def subscriptions_findByUserId (st : Store) (userId : Option String) : List Subscription :=
  st.subscriptions.filter (fun s => s.user_id == userId)

/-- The operation `db.subscriptions.findActiveByUserId(userId)` of `user.js`:
the user's subscriptions with status `"active"` and `expires_at` in the future. -/
def subscriptions_findActiveByUserId (st : Store) (userId : Option String) (now : Nat) :
    List Subscription :=
  (subscriptions_findByUserId st userId).filter
    (fun s => s.status == "active" && decide (now < s.expires_at))

/-- The status-rewriting function applied by `db.subscriptions.updateStatus`. -/
def setSubscriptionStatus (subId newStatus : String) (now : Nat) (s : Subscription) : Subscription :=
  if s.id == subId then { s with status := newStatus, updated_at := now } else s

/-- The operation `db.subscriptions.updateStatus(subscriptionId, status)` of
`user.js`: overwrite the status of the identified record, if any. -/
def subscriptions_updateStatus (st : Store) (subId newStatus : String) (now : Nat) :
    Store × Option Subscription :=
  match st.subscriptions.find? (fun s => s.id == subId) with
  | none => (st, none)
  | some s =>
    ({ st with subscriptions := st.subscriptions.map (setSubscriptionStatus subId newStatus now) },
     some (setSubscriptionStatus subId newStatus now s))

/-!  String plumbing.  The webhook body is delivered URL-encoded
(`express.urlencoded`, mounted at the route in `payment.js`), and the
verifier re-serialises the parsed body with `JSON.stringify`.  The helpers
below are written over `List Char` so that all recursion is structural and
everything evaluates inside the kernel. -/

/-- Numeric value of one hexadecimal digit, decided on the code point:
48–57 are the digits, 97–102 lower-case a–f, 65–70 upper-case A–F. -/
def hexVal (c : Char) : Option Nat :=
  let n := c.toNat
  if 48 ≤ n && n ≤ 57 then some (n - 48)
  else if 97 ≤ n && n ≤ 102 then some (n - 87)
  else if 65 ≤ n && n ≤ 70 then some (n - 55)
  else none

/-- Percent-decoding of a URL-encoded component (with `+` as space), as
performed by the urlencoded body parser. -/
def percentDecodeChars : List Char → List Char
  | [] => []
  | '%' :: a :: b :: rest =>
    match hexVal a, hexVal b with
    | some ha, some hb => Char.ofNat (ha * 16 + hb) :: percentDecodeChars rest
    | _, _ => '%' :: percentDecodeChars (a :: b :: rest)
  | '+' :: rest => ' ' :: percentDecodeChars rest
  | c :: rest => c :: percentDecodeChars rest

/-- Splits a character list at every occurrence of `sep`. -/
def splitOnCharAux (sep : Char) : List Char → List Char → List (List Char)
  | [], acc => [acc.reverse]
  | c :: rest, acc =>
    if c = sep then acc.reverse :: splitOnCharAux sep rest []
    else splitOnCharAux sep rest (c :: acc)

/-- Splits a character list at every occurrence of `sep`. -/
def splitOnChar (sep : Char) (l : List Char) : List (List Char) :=
  splitOnCharAux sep l []

/-- Splits `key=value` at the first `=`; a component with no `=` has no value. -/
def splitFirstEq : List Char → List Char × Option (List Char)
  | [] => ([], none)
  | '=' :: rest => ([], some rest)
  | c :: rest =>
    let (k, v) := splitFirstEq rest
    (c :: k, v)

/-- Value of a decimal digit string, most significant digit first; code
point 48 is the digit zero. -/
def natOfDigits (l : List Char) : Nat :=
  l.foldl (fun acc d => 10 * acc + (d.toNat - 48)) 0

/-- Conversion of the IPN `amount` field to integer cents, embedding
`Math.round(parseFloat(amount) * 100)` of `handlePaymentSucceeded`
(`payment.js`).  It is exact for decimal numerals with at most two
fraction digits — the only shape the processor sends and the only shape
any theorem below evaluates it on. -/
def amountToCents (s : String) : Nat :=
  match splitOnChar '.' s.data with
  | [intPart] => natOfDigits intPart * 100
  | intPart :: frac :: _ => natOfDigits intPart * 100 + natOfDigits ((frac ++ ['0', '0']).take 2)
  | [] => 0

/-- The parsed request body `req.body`: the insertion-ordered key/value
object the urlencoded body parser builds from the raw bytes, keeping every
key in arrival order.  (Repeated keys, which the qs parser collects into
arrays, occur in no analysed payload and are outside the model.) -/
abbrev Body : Type :=
  List (String × String)

/-- The seven body fields the handlers in `payment.js` destructure or
read.  A missing field is `none` (undefined). -/
structure IpnData where
  custom_param1 : Option String
  custom_param2 : Option String
  custom_param3 : Option String
  token : Option String
  amount : Option String
  status : Option String
  error_message : Option String
deriving Repr, DecidableEq

/-- Property lookup on the parsed body object. -/
def bodyGet (body : Body) (k : String) : Option String :=
  ((body.find? (fun p => p.1 == k)).map (fun p => p.2))

/-- The destructuring the notification handlers perform on `req.body`:
the seven properties read anywhere in `payment.js`.  Every other key of
the body is unread by the handlers (it reaches only `JSON.stringify` in
the verifier). -/
def IpnData.ofBody (body : Body) : IpnData :=
  { custom_param1 := bodyGet body "custom_param1",
    custom_param2 := bodyGet body "custom_param2",
    custom_param3 := bodyGet body "custom_param3", token := bodyGet body "token",
    amount := bodyGet body "amount", status := bodyGet body "status",
    error_message := bodyGet body "error_message" }

/-- One `"key":"value"` member of a JSON object. -/
def jsonMember (k v : String) : String :=
  "\"" ++ k ++ "\":\"" ++ v ++ "\""

/-- The string `JSON.stringify(ipnData)` that `verifyPayoneerSignature`
(`payment.js`) feeds to the MAC: every key of the parsed body, in
insertion order.  String escaping is not modelled; no analysed payload
contains a character that `JSON.stringify` escapes. -/
def jsonStringify (body : Body) : String :=
  "\x7b" ++ String.intercalate "," (body.map (fun kv => jsonMember kv.1 kv.2)) ++ "\x7d"

/-- The body the webhook route actually receives: `express.urlencoded`
applied to the raw request bytes.  Modelled from the spec: the route in
`payment.js` mounts this parser, whose implementation lives in the express
library outside this repository; the embedding decodes `k=v` pairs joined
by `&` with percent-decoding of keys and values, keeping every pair in
arrival order. -/
def urlencodedParse (raw : String) : Body :=
  (splitOnChar '&' raw.data).map (fun kv =>
    let (k, v) := splitFirstEq kv
    (String.mk (percentDecodeChars k), String.mk (percentDecodeChars (v.getD []))))

/-!  The IPN signature verifier and the four notification handlers of
`backend/routes/payment.js`.  The MAC algorithm (`crypto.createHmac`,
node's OpenSSL binding) is external to the repository and is passed in as
a function `hmac : secret → data → hex digest`.  `crypto.timingSafeEqual`
throws when the two buffers differ in byte length; that exceptional exit
is an `Except.error`. -/

/-- The function `verifyPayoneerSignature(ipnData, signature)` of
`payment.js`, where `ipnData` is the full parsed body: reject a falsy
signature, MAC `JSON.stringify(ipnData)` (every key, insertion order),
then compare with `crypto.timingSafeEqual` on the UTF-8 buffers — equal
length gives the boolean comparison, unequal length throws. -/
def verifyPayoneerSignature (hmac : String → String → String) (secret : String)
    (ipnData : Body) (signature : Option String) : Except String Bool :=
  if jsFalsy signature then Except.ok false
  else
    let dataToHash := jsonStringify ipnData
    let calculatedSignature := hmac secret dataToHash
    let sig := signature.getD ""
    if sig.utf8ByteSize = calculatedSignature.utf8ByteSize then
      Except.ok (sig == calculatedSignature)
    else
      Except.error "ERR_CRYPTO_TIMING_SAFE_EQUAL_LENGTH"

/-- The handler `handlePaymentSucceeded(ipnData)` of `payment.js`, as a
transformer of the database state.  Stages, in source order: required-field
check, idempotency check against an already-completed payment record, plan
lookup, amount comparison (exact equality with `plan.price`), subscription
creation, payment-status update when a record exists, audit write. -/
def handlePaymentSucceeded (now : Nat) (ipn : IpnData) (st : Store) : Store :=
  let userId := ipn.custom_param1
  let planId := ipn.custom_param2
  let paymentToken := ipn.token
  if jsFalsy userId || jsFalsy planId || jsFalsy ipn.amount then st
  else
    let payment := payments_findByStripeId st paymentToken
    if (payment.map (fun p => p.status == "completed")).getD false then st
    else
      match getPlan planId with
      | none =>
        audit_log st userId "invalid_plan"
          [("planId", optStr planId), ("paymentToken", optStr paymentToken)] now
      | some plan =>
        let amountInCents := amountToCents (ipn.amount.getD "")
        if amountInCents ≠ plan.price then
          audit_log st userId "fraud_detected"
            [("paymentToken", optStr paymentToken),
             ("expectedAmount", toString plan.price),
             ("actualAmount", toString amountInCents),
             ("planId", optStr planId)] now
        else
          let expiresAt := now + plan.duration_days
          let subscription := (subscriptions_create st userId planId paymentToken expiresAt now).1
          let st1 := (subscriptions_create st userId planId paymentToken expiresAt now).2
          let st2 :=
            match payment with
            | some p => (payments_updateStatus st1 p.id "completed" now).1
            | none => st1
          audit_log st2 userId "subscription_created"
            [("paymentToken", optStr paymentToken), ("planId", optStr planId),
             ("amount", toString amountInCents), ("expiresAt", toString expiresAt),
             ("subscriptionId", subscription.id)] now

/-- The handler `handlePaymentFailed(ipnData)` of `payment.js`: set any
existing payment record for the token to `"failed"`, then audit. -/
def handlePaymentFailed (now : Nat) (ipn : IpnData) (st : Store) : Store :=
  let st1 :=
    match payments_findByStripeId st ipn.token with
    | some p => (payments_updateStatus st p.id "failed" now).1
    | none => st
  audit_log st1 ipn.custom_param1 "payment_failed"
    [("paymentToken", optStr ipn.token), ("reason", optStr ipn.error_message)] now

/-- The handler `handlePaymentPending(ipnData)` of `payment.js`: audit only. -/
def handlePaymentPending (now : Nat) (ipn : IpnData) (st : Store) : Store :=
  audit_log st ipn.custom_param1 "payment_pending"
    [("paymentToken", optStr ipn.token)] now

/-- The handler `handlePaymentRefunded(ipnData)` of `payment.js`: cancel the
first of the user's subscriptions whose `plan_id` equals the notification's
`custom_param2`, set any payment record for the token to `"refunded"`, audit. -/
def handlePaymentRefunded (now : Nat) (ipn : IpnData) (st : Store) : Store :=
  let userId := ipn.custom_param1
  let planId := ipn.custom_param2
  let subscription := (subscriptions_findByUserId st userId).find? (fun s => s.plan_id == planId)
  let st1 :=
    match subscription with
    | some s => (subscriptions_updateStatus st s.id "canceled" now).1
    | none => st
  let st2 :=
    match payments_findByStripeId st1 ipn.token with
    | some p => (payments_updateStatus st1 p.id "refunded" now).1
    | none => st1
  audit_log st2 userId "payment_refunded"
    [("paymentToken", optStr ipn.token), ("planId", optStr planId),
     ("subscriptionId", optStr (subscription.map (fun s => s.id)))] now

/-- Observable outcome of one delivery to the webhook endpoint: HTTP status
code, resulting database state, and which handler the dispatch switch
invoked (`none` when none ran). -/
structure WebhookOutcome where
  httpStatus : Nat
  store : Store
  dispatched : Option String
deriving Repr, DecidableEq

/-- The endpoint `router.post('/')` of `payment.js` on the parsed body:
verify the signature over the full body (401 on mismatch, and the
length-mismatch throw of `timingSafeEqual` is caught by the surrounding
try/catch, which still answers 200), then dispatch on `ipnData.status`,
always answering 200.  The handlers read only the seven destructured
fields, so they receive `IpnData.ofBody body`. -/
def webhookPost (hmac : String → String → String) (secret : String) (now : Nat)
    (body : Body) (signature : Option String) (st : Store) : WebhookOutcome :=
  match verifyPayoneerSignature hmac secret body signature with
  | Except.error _ => { httpStatus := 200, store := st, dispatched := none }
  | Except.ok false => { httpStatus := 401, store := st, dispatched := none }
  | Except.ok true =>
    let ipn := IpnData.ofBody body
    match ipn.status with
    | some s =>
      if s == "success" || s == "approved" then
        { httpStatus := 200, store := handlePaymentSucceeded now ipn st,
          dispatched := some "handlePaymentSucceeded" }
      else if s == "failed" || s == "declined" then
        { httpStatus := 200, store := handlePaymentFailed now ipn st,
          dispatched := some "handlePaymentFailed" }
      else if s == "pending" then
        { httpStatus := 200, store := handlePaymentPending now ipn st,
          dispatched := some "handlePaymentPending" }
      else if s == "refund" then
        { httpStatus := 200, store := handlePaymentRefunded now ipn st,
          dispatched := some "handlePaymentRefunded" }
      else { httpStatus := 200, store := st, dispatched := none }
    | none => { httpStatus := 200, store := st, dispatched := none }

/-- The endpoint on the raw delivered bytes: body parsing by the mounted
urlencoded middleware, then `webhookPost`. -/
def webhookPostRaw (hmac : String → String → String) (secret : String) (now : Nat)
    (raw : String) (signature : Option String) (st : Store) : WebhookOutcome :=
  webhookPost hmac secret now (urlencodedParse raw) signature st

/-!  The protected-download pipeline: `router.get('/download/:filename')` of
`backend/routes/articles.js`, chained after the `requireAuth` and
`requireSubscription` middleware of `backend/middleware/auth.js`.  The
trace of `GateEv` events records which pipeline stage executed, in
execution order, so that "a later stage was never consulted" is the
absence of its event. -/

/-- Pipeline stages of the download route, in middleware order. -/
inductive GateEv where
  | sessionChecked
  | subscriptionChecked
  | whitelistChecked
deriving Repr, DecidableEq

/-- The whitelist `ALLOWED_FILES` of `articles.js`. -/
def ALLOWED_FILES : List (String × String) :=
  [("health-wellness.pdf", "Health and Wellness Guide"),
   ("article-1.pdf", "Article 1: Advanced Topics")]

/-- The route `GET /api/articles/download/:filename` behind `requireAuth`
and `requireSubscription`.  `sessionUserId` is `req.session?.userId`;
`fileExists`/`fileSize` stand for the filesystem (`fs.existsSync`,
`fs.statSync`).  The `path.join(PDF_DIR, filename).startsWith(PDF_DIR)`
guard cannot fail for whitelisted names (both are plain file names), so it
is not a separate branch.  Returns the HTTP status, the stage trace, and
the resulting database state. -/
def downloadRoute (sessionUserId : Option String) (filename : String)
    (fileExists : Bool) (fileSize : Nat) (now : Nat) (st : Store) :
    Nat × List GateEv × Store :=
  if jsFalsy sessionUserId then
    (401, [GateEv.sessionChecked], st)
  else
    let subs := subscriptions_findActiveByUserId st sessionUserId now
    if subs.isEmpty then
      (403, [GateEv.sessionChecked, GateEv.subscriptionChecked], st)
    else
      let evs := [GateEv.sessionChecked, GateEv.subscriptionChecked, GateEv.whitelistChecked]
      if (ALLOWED_FILES.find? (fun kv => kv.1 == filename)).isNone then
        (404, evs, st)
      else if !fileExists then
        (404, evs, st)
      else
        let st' := audit_log st sessionUserId "pdf_download"
          [("filename", filename), ("fileSize", toString fileSize)] now
        (200, evs, st')

/-!  Concrete fixtures: the worked example of the documentation (plan
`starter`, price 9800 cents, token `tok_1`, user `u1`) and a stub MAC.
An HMAC-SHA256 hex digest is always 64 characters; the stub shares that
shape, and no theorem below depends on any other property of the MAC. -/

/-- A 64-character hex digest, the shape of every HMAC-SHA256 hex digest. -/
def stubDigest : String :=
  String.mk (List.replicate 64 'a')

/-- Stub MAC standing in for `crypto.createHmac('sha256', secret)`:
constant digest of the correct shape. -/
def stubHmac : String → String → String :=
  fun _ _ => stubDigest

/-- The documentation's example success notification as a parsed body. -/
def exampleBody : Body :=
  [("custom_param1", "u1"), ("custom_param2", "starter"), ("custom_param3", "Starter"),
   ("token", "tok_1"), ("amount", "98.00"), ("status", "success")]

/-- The documentation's example success notification, destructured. -/
def exampleIpn : IpnData :=
  { custom_param1 := some "u1", custom_param2 := some "starter",
    custom_param3 := some "Starter", token := some "tok_1",
    amount := some "98.00", status := some "success", error_message := none }

/-- The example success notification as a raw URL-encoded request body. -/
def exampleRawBody : String :=
  "custom_param1=u1&custom_param2=starter&custom_param3=Starter&token=tok_1&amount=98.00&status=success"

/-- The same delivery with the amount's decimal point percent-encoded:
different raw bytes, identical parse (same keys, same order, same values). -/
def exampleRawBodyAlt : String :=
  "custom_param1=u1&custom_param2=starter&custom_param3=Starter&token=tok_1&amount=98%2E00&status=success"

/-- The example body with the amount one cent above the plan price. -/
def offByOneBody : Body :=
  [("custom_param1", "u1"), ("custom_param2", "starter"), ("custom_param3", "Starter"),
   ("token", "tok_1"), ("amount", "98.01"), ("status", "success")]

/-- The example body with the amount field missing. -/
def noAmountBody : Body :=
  [("custom_param1", "u1"), ("custom_param2", "starter"), ("custom_param3", "Starter"),
   ("token", "tok_1"), ("status", "success")]

/-- A failure notification for the example token, as a parsed body. -/
def failedBody : Body :=
  [("custom_param1", "u1"), ("custom_param2", "starter"), ("token", "tok_1"),
   ("status", "failed"), ("error_message", "card declined")]

/-- A refund notification for the example token, as a parsed body. -/
def refundBody : Body :=
  [("custom_param1", "u1"), ("custom_param2", "starter"), ("token", "tok_1"),
   ("status", "refund")]

/-- The refund notification, destructured as the handlers see it. -/
def refundIpn : IpnData :=
  { custom_param1 := some "u1", custom_param2 := some "starter",
    custom_param3 := none, token := some "tok_1", amount := none,
    status := some "refund", error_message := none }

/-- A pending payment attempt for the example token, as checkout creates it. -/
def pendingPayment : Payment :=
  { id := "p1", user_id := some "u1", plan_id := some "starter",
    stripe_payment_intent_id := "tok_1", amount := 9800, status := "pending",
    created_at := 0, updated_at := 0 }

/-- A completed payment attempt for the example token. -/
def completedPayment : Payment :=
  { pendingPayment with status := "completed" }

/-- Database holding only the pending attempt for `tok_1`. -/
def pendingStore : Store :=
  { emptyStore with payments := [pendingPayment] }

/-- An active subscription of user `u1` from an earlier payment `tok_0`. -/
def activeSub : Subscription :=
  { id := "s1", user_id := some "u1", plan_id := some "starter",
    stripe_subscription_id := some "tok_0", status := "active",
    expires_at := 1000, created_at := 0, updated_at := 0 }

/-- Database in which `u1` already holds the active subscription `s1`. -/
def oneActiveSubStore : Store :=
  { emptyStore with subscriptions := [activeSub] }

/-!  Helper lemmas about the store operations. -/

theorem audit_log_subscriptions (st : Store) (u : Option String) (a : String)
    (d : List (String × String)) (n : Nat) : (audit_log st u a d n).subscriptions = st.subscriptions := rfl

theorem audit_log_payments (st : Store) (u : Option String) (a : String)
    (d : List (String × String)) (n : Nat) : (audit_log st u a d n).payments = st.payments := rfl

theorem audit_log_auditLog_length (st : Store) (u : Option String) (a : String)
    (d : List (String × String)) (n : Nat) :
    (audit_log st u a d n).auditLog.length = st.auditLog.length + 1 := by
  simp [audit_log, Store.genId]

theorem payments_updateStatus_subscriptions (st : Store) (pid ns : String) (now : Nat) :
    ((payments_updateStatus st pid ns now).1).subscriptions = st.subscriptions := by
  unfold payments_updateStatus
  cases st.payments.find? (fun p => p.id == pid) <;> rfl

theorem payments_updateStatus_auditLog (st : Store) (pid ns : String) (now : Nat) :
    ((payments_updateStatus st pid ns now).1).auditLog = st.auditLog := by
  unfold payments_updateStatus
  cases st.payments.find? (fun p => p.id == pid) <;> rfl

theorem payments_updateStatus_payments_of_found (st : Store) (pid ns : String) (now : Nat)
    (h : (st.payments.find? (fun p => p.id == pid)).isSome = true) :
    ((payments_updateStatus st pid ns now).1).payments
      = st.payments.map (setPaymentStatus pid ns now) := by
  unfold payments_updateStatus
  cases hf : st.payments.find? (fun p => p.id == pid) with
  | none => rw [hf] at h; simp at h
  | some p => simp

theorem subscriptions_updateStatus_payments (st : Store) (sid ns : String) (now : Nat) :
    ((subscriptions_updateStatus st sid ns now).1).payments = st.payments := by
  unfold subscriptions_updateStatus
  cases st.subscriptions.find? (fun s => s.id == sid) <;> rfl

theorem subscriptions_updateStatus_length (st : Store) (sid ns : String) (now : Nat) :
    ((subscriptions_updateStatus st sid ns now).1).subscriptions.length
      = st.subscriptions.length := by
  unfold subscriptions_updateStatus
  cases st.subscriptions.find? (fun s => s.id == sid) <;> simp

theorem subscriptions_updateStatus_auditLog (st : Store) (sid ns : String) (now : Nat) :
    ((subscriptions_updateStatus st sid ns now).1).auditLog = st.auditLog := by
  unfold subscriptions_updateStatus
  cases st.subscriptions.find? (fun s => s.id == sid) <;> rfl

theorem subscriptions_updateStatus_subscriptions_of_found (st : Store) (sid ns : String)
    (now : Nat) (h : (st.subscriptions.find? (fun s => s.id == sid)).isSome = true) :
    ((subscriptions_updateStatus st sid ns now).1).subscriptions
      = st.subscriptions.map (setSubscriptionStatus sid ns now) := by
  unfold subscriptions_updateStatus
  cases hf : st.subscriptions.find? (fun s => s.id == sid) with
  | none => rw [hf] at h; simp at h
  | some s => simp

theorem setPaymentStatus_id (pid ns : String) (now : Nat) (p : Payment) :
    (setPaymentStatus pid ns now p).id = p.id := by
  unfold setPaymentStatus; split <;> rfl

theorem setPaymentStatus_self_status (ns : String) (now : Nat) (p : Payment) :
    (setPaymentStatus p.id ns now p).status = ns := by
  simp [setPaymentStatus]

theorem setSubscriptionStatus_self_status (ns : String) (now : Nat) (s : Subscription) :
    (setSubscriptionStatus s.id ns now s).status = ns := by
  simp [setSubscriptionStatus]

theorem setSubscriptionStatus_id (sid ns : String) (now : Nat) (s : Subscription) :
    (setSubscriptionStatus sid ns now s).id = s.id := by
  unfold setSubscriptionStatus; split <;> rfl

/-- Rewriting every payment's status does not move records: the token
search on the rewritten store finds the rewritten first match. -/
theorem find?_token_map_setPaymentStatus (l : List Payment) (pid ns : String) (now : Nat)
    (tok : Option String) :
    (l.map (setPaymentStatus pid ns now)).find? (fun p => some p.stripe_payment_intent_id == tok)
      = (l.find? (fun p => some p.stripe_payment_intent_id == tok)).map
          (setPaymentStatus pid ns now) := by
  have hpred : ((fun p => some p.stripe_payment_intent_id == tok) ∘ setPaymentStatus pid ns now)
      = (fun p => some p.stripe_payment_intent_id == tok) := by
    funext q
    simp only [Function.comp_apply, setPaymentStatus]
    split <;> rfl
  rw [List.find?_map, hpred]

theorem subscriptions_create_payments (st : Store) (u pl tok : Option String) (e n : Nat) :
    (subscriptions_create st u pl tok e n).2.payments = st.payments := rfl

theorem subscriptions_create_auditLog (st : Store) (u pl tok : Option String) (e n : Nat) :
    (subscriptions_create st u pl tok e n).2.auditLog = st.auditLog := rfl

theorem subscriptions_create_subscriptions (st : Store) (u pl tok : Option String) (e n : Nat) :
    (subscriptions_create st u pl tok e n).2.subscriptions
      = st.subscriptions ++ [(subscriptions_create st u pl tok e n).1] := rfl

/-- The idempotency guard of `handlePaymentSucceeded`: when the token's
payment record is already completed, the handler returns without writing. -/
theorem handlePaymentSucceeded_completed_noop (now : Nat) (ipn : IpnData) (st : Store)
    (q : Payment)
    (hfields : (jsFalsy ipn.custom_param1 || jsFalsy ipn.custom_param2 || jsFalsy ipn.amount)
      = false)
    (hq : payments_findByStripeId st ipn.token = some q)
    (hqc : q.status = "completed") :
    handlePaymentSucceeded now ipn st = st := by
  unfold handlePaymentSucceeded
  simp [hfields, hq, hqc]

/-- The grant path of `handlePaymentSucceeded`: with all fields present, an
uncompleted payment record for the token, a known plan and a matching
amount, the handler rewrites that record to completed and appends exactly
one subscription. -/
theorem handlePaymentSucceeded_grant (now : Nat) (ipn : IpnData) (st : Store)
    (p : Payment) (plan : Plan)
    (hfields : (jsFalsy ipn.custom_param1 || jsFalsy ipn.custom_param2 || jsFalsy ipn.amount)
      = false)
    (hp : payments_findByStripeId st ipn.token = some p)
    (hpend : (p.status == "completed") = false)
    (hplan : getPlan ipn.custom_param2 = some plan)
    (hamt : amountToCents (ipn.amount.getD "") = plan.price) :
    (handlePaymentSucceeded now ipn st).payments
        = st.payments.map (setPaymentStatus p.id "completed" now) ∧
    (handlePaymentSucceeded now ipn st).subscriptions.length
        = st.subscriptions.length + 1 := by
  have hmem : p ∈ st.payments := List.mem_of_find?_eq_some hp
  have hfound : ((subscriptions_create st ipn.custom_param1 ipn.custom_param2 ipn.token
      (now + plan.duration_days) now).2.payments.find? (fun q => q.id == p.id)).isSome
      = true := by
    rw [subscriptions_create_payments]
    exact List.find?_isSome.mpr ⟨p, hmem, by simp⟩
  unfold handlePaymentSucceeded
  simp [hfields, hp, hplan, hamt, hpend, audit_log_payments, audit_log_subscriptions,
    payments_updateStatus_subscriptions, subscriptions_create_payments,
    subscriptions_create_subscriptions, payments_updateStatus_payments_of_found _ _ _ _ hfound]

/-- The catalog's `starter` plan, as `getPlan('starter')` returns it. -/
def starterPlan : Plan :=
  { id := "starter", name := "Starter", price := 9800, currency := "usd",
    articles_limit := 10, duration_days := 30 }

/-- First delivery of the verified example success notification to a
database holding no payment record for its token. -/
def firstDeliveryNoRecord : WebhookOutcome :=
  webhookPost stubHmac "secret" 0 exampleBody (some stubDigest) emptyStore

/-- Second, identical delivery of the same verified notification. -/
def secondDeliveryNoRecord : WebhookOutcome :=
  webhookPost stubHmac "secret" 0 exampleBody (some stubDigest) firstDeliveryNoRecord.store

/-!  Claim theorems. -/

/-- C1, counterexample.  The claim asserts idempotent processing for every
initial store state, including the state with no PaymentAttempt record for
the token.  In that state the idempotency guard (which looks for an
already-completed payment record) never fires: delivering the identical
verified success notification twice creates two Subscriptions, leaves no
completed PaymentAttempt at all, and the second delivery writes a further
audit entry. -/
theorem duplicate_success_without_attempt_two_subscriptions :
    firstDeliveryNoRecord.httpStatus = 200 ∧
    secondDeliveryNoRecord.httpStatus = 200 ∧
    secondDeliveryNoRecord.store.subscriptions.length = 2 ∧
    secondDeliveryNoRecord.store.payments.filter (fun p => p.status == "completed") = [] ∧
    secondDeliveryNoRecord.store.auditLog.length
      = firstDeliveryNoRecord.store.auditLog.length + 1 := by
  decide

/-- C1, amended.  Idempotency of the success handler holds provided a
PaymentAttempt record exists for the token before the first delivery (the
state checkout always establishes): with all required fields present, a
not-yet-completed record for the token, a known plan and a matching
amount, the first delivery appends exactly one Subscription and completes
the token's PaymentAttempt, and a second delivery of the identical
notification, at any later time, performs no writes at all. -/
theorem success_idempotent_with_existing_attempt (now now2 : Nat) (ipn : IpnData)
    (st : Store) (p : Payment) (plan : Plan)
    (hfields : (jsFalsy ipn.custom_param1 || jsFalsy ipn.custom_param2 || jsFalsy ipn.amount)
      = false)
    (hp : payments_findByStripeId st ipn.token = some p)
    (hpend : (p.status == "completed") = false)
    (hplan : getPlan ipn.custom_param2 = some plan)
    (hamt : amountToCents (ipn.amount.getD "") = plan.price) :
    handlePaymentSucceeded now2 ipn (handlePaymentSucceeded now ipn st)
        = handlePaymentSucceeded now ipn st ∧
    (handlePaymentSucceeded now ipn st).subscriptions.length = st.subscriptions.length + 1 ∧
    ∃ p', p' ∈ (handlePaymentSucceeded now ipn st).payments ∧
      p'.id = p.id ∧ p'.status = "completed" := by
  obtain ⟨hpay, hsub⟩ := handlePaymentSucceeded_grant now ipn st p plan hfields hp hpend hplan hamt
  have hmem : p ∈ st.payments := List.mem_of_find?_eq_some hp
  have hfind1 : payments_findByStripeId (handlePaymentSucceeded now ipn st) ipn.token
      = some (setPaymentStatus p.id "completed" now p) := by
    unfold payments_findByStripeId at hp ⊢
    rw [hpay, find?_token_map_setPaymentStatus, hp]
    rfl
  have hstat : (setPaymentStatus p.id "completed" now p).status = "completed" :=
    setPaymentStatus_self_status _ _ _
  refine ⟨?_, hsub, ?_⟩
  · exact handlePaymentSucceeded_completed_noop now2 ipn _ _ hfields hfind1 hstat
  · refine ⟨setPaymentStatus p.id "completed" now p, ?_, setPaymentStatus_id _ _ _ _, hstat⟩
    rw [hpay]
    exact List.mem_map_of_mem _ hmem

/-- C1, witness: the amended idempotency at the documentation's example
delivery against the store holding the pending attempt for `tok_1`. -/
theorem success_idempotent_with_existing_attempt_witness :
    handlePaymentSucceeded 5 exampleIpn (handlePaymentSucceeded 0 exampleIpn pendingStore)
        = handlePaymentSucceeded 0 exampleIpn pendingStore ∧
    (handlePaymentSucceeded 0 exampleIpn pendingStore).subscriptions.length
        = pendingStore.subscriptions.length + 1 ∧
    ∃ p', p' ∈ (handlePaymentSucceeded 0 exampleIpn pendingStore).payments ∧
      p'.id = pendingPayment.id ∧ p'.status = "completed" :=
  success_idempotent_with_existing_attempt 0 5 exampleIpn pendingStore pendingPayment
    starterPlan (by decide) (by decide) (by decide) (by decide) (by decide)

/-- C2.  The spec and the repository's own price validator
(`validatePlanPrice`, tolerance of one cent, which the repository's
developer guide shows the success handler calling) accept a claimed amount
one cent away from `plan.price`; the webhook's success handler instead
compares with exact equality, so the verified example notification with
amount `98.01` against plan `starter` (price 9800) is flagged as fraud:
no Subscription is granted, a `fraud_detected` audit entry is written, and
the pending attempt stays pending. -/
theorem one_cent_difference_flagged_fraud :
    validatePlanPrice (some "starter") 9801 = true ∧
    amountToCents "98.01" = 9801 ∧
    (webhookPost stubHmac "secret" 0 offByOneBody (some stubDigest) pendingStore).httpStatus
      = 200 ∧
    (webhookPost stubHmac "secret" 0 offByOneBody (some stubDigest) pendingStore).store.subscriptions
      = [] ∧
    ((webhookPost stubHmac "secret" 0 offByOneBody (some stubDigest) pendingStore).store.auditLog.map
      (fun e => e.action)) = ["fraud_detected"] ∧
    ((webhookPost stubHmac "secret" 0 offByOneBody (some stubDigest) pendingStore).store.payments.map
      (fun p => p.status)) = ["pending"] := by
  decide

/-- C3, counterexample.  One verified success delivery against a store with
no PaymentAttempt record for the token makes the subscription store gain a
record while the payment store stays empty: no PaymentAttempt became
completed in that step. -/
theorem subscription_created_without_attempt_transition :
    firstDeliveryNoRecord.store.subscriptions.length
      = emptyStore.subscriptions.length + 1 ∧
    firstDeliveryNoRecord.store.payments = [] := by
  decide

/-- C3, amended.  Subscriptions are created only by the success handler:
the failure and pending handlers leave the subscription store untouched
and the refund handler never adds a record; and whenever the success
handler grows the subscription store *and* a PaymentAttempt record exists
for the token, that record's status becomes completed in the same step.
(When no record exists, a Subscription is created with no PaymentAttempt
transition — the counterexample above.) -/
theorem subscription_growth_completes_existing_attempt (now : Nat) (ipn : IpnData)
    (st : Store) :
    (handlePaymentFailed now ipn st).subscriptions = st.subscriptions ∧
    (handlePaymentPending now ipn st).subscriptions = st.subscriptions ∧
    (handlePaymentRefunded now ipn st).subscriptions.length = st.subscriptions.length ∧
    (∀ p, payments_findByStripeId st ipn.token = some p →
      st.subscriptions.length < (handlePaymentSucceeded now ipn st).subscriptions.length →
      ∃ p', p' ∈ (handlePaymentSucceeded now ipn st).payments ∧
        p'.id = p.id ∧ p'.status = "completed") := by
  refine ⟨?_, ?_, ?_, ?_⟩
  · unfold handlePaymentFailed
    cases payments_findByStripeId st ipn.token <;>
      simp [audit_log_subscriptions, payments_updateStatus_subscriptions]
  · exact audit_log_subscriptions st _ _ _ _
  · unfold handlePaymentRefunded
    cases hs : (subscriptions_findByUserId st ipn.custom_param1).find?
        (fun s => s.plan_id == ipn.custom_param2) with
    | none =>
      simp only [hs]
      cases hp2 : payments_findByStripeId st ipn.token <;>
        simp [hp2, audit_log_subscriptions, payments_updateStatus_subscriptions]
    | some s =>
      simp only [hs]
      cases hp2 : payments_findByStripeId
          (subscriptions_updateStatus st s.id "canceled" now).1 ipn.token <;>
        simp [hp2, audit_log_subscriptions, payments_updateStatus_subscriptions,
          subscriptions_updateStatus_length]
  · intro p hp hgrow
    by_cases hfields : (jsFalsy ipn.custom_param1 || jsFalsy ipn.custom_param2 ||
        jsFalsy ipn.amount) = true
    · have hnull : handlePaymentSucceeded now ipn st = st := by
        unfold handlePaymentSucceeded; simp [hfields]
      rw [hnull] at hgrow
      exact absurd hgrow (lt_irrefl _)
    · have hfields' : (jsFalsy ipn.custom_param1 || jsFalsy ipn.custom_param2 ||
          jsFalsy ipn.amount) = false := by
        simpa using hfields
      by_cases hpend : (p.status == "completed") = true
      · have heq : p.status = "completed" := by simpa using hpend
        have hnull : handlePaymentSucceeded now ipn st = st :=
          handlePaymentSucceeded_completed_noop now ipn st p hfields' hp heq
        rw [hnull] at hgrow
        exact absurd hgrow (lt_irrefl _)
      · have hpend' : (p.status == "completed") = false := by simpa using hpend
        cases hplan : getPlan ipn.custom_param2 with
        | none =>
          have hnull : (handlePaymentSucceeded now ipn st).subscriptions = st.subscriptions := by
            unfold handlePaymentSucceeded
            simp [hfields', hp, hpend', hplan, audit_log_subscriptions]
          rw [hnull] at hgrow
          exact absurd hgrow (lt_irrefl _)
        | some plan =>
          by_cases hamt : amountToCents (ipn.amount.getD "") = plan.price
          · obtain ⟨hpay, _⟩ :=
              handlePaymentSucceeded_grant now ipn st p plan hfields' hp hpend' hplan hamt
            refine ⟨setPaymentStatus p.id "completed" now p, ?_,
              setPaymentStatus_id _ _ _ _, setPaymentStatus_self_status _ _ _⟩
            rw [hpay]
            exact List.mem_map_of_mem _ (List.mem_of_find?_eq_some hp)
          · have hnull : (handlePaymentSucceeded now ipn st).subscriptions
                = st.subscriptions := by
              unfold handlePaymentSucceeded
              simp [hfields', hp, hpend', hplan, hamt, audit_log_subscriptions]
            rw [hnull] at hgrow
            exact absurd hgrow (lt_irrefl _)

/-- C3, witness: the amended statement's success conjunct at the example
delivery against the pending attempt for `tok_1`. -/
theorem subscription_growth_completes_existing_attempt_witness :
    ∃ p', p' ∈ (handlePaymentSucceeded 0 exampleIpn pendingStore).payments ∧
      p'.id = pendingPayment.id ∧ p'.status = "completed" :=
  (subscription_growth_completes_existing_attempt 0 exampleIpn pendingStore).2.2.2
    pendingPayment (by decide) (by decide)

/-- C4, counterexample.  A verified success notification for a user who
already holds an active subscription simply appends a second active one:
`findActiveByUserId` then returns two records for `u1`, and the earlier
record is never marked canceled or superseded. -/
theorem second_payment_two_active_subscriptions :
    (subscriptions_findActiveByUserId
        (webhookPost stubHmac "secret" 0 exampleBody (some stubDigest) oneActiveSubStore).store
        (some "u1") 0).length = 2 ∧
    ((webhookPost stubHmac "secret" 0 exampleBody (some stubDigest) oneActiveSubStore).store.subscriptions.map
      (fun s => s.status)) = ["active", "active"] := by
  decide

/-- C4, amended.  The success handler never supersedes: for every input it
at most appends to the subscription store, leaving every existing record
(in particular its status) verbatim; nothing ever marks a previous active
subscription canceled when a new one is granted, so a user can accumulate
several simultaneously active subscriptions. -/
theorem success_never_mutates_existing_subscriptions (now : Nat) (ipn : IpnData)
    (st : Store) :
    ∃ tail, (handlePaymentSucceeded now ipn st).subscriptions = st.subscriptions ++ tail := by
  unfold handlePaymentSucceeded
  dsimp only
  split
  · exact ⟨[], by simp⟩
  · split
    · exact ⟨[], by simp⟩
    · split
      · exact ⟨[], by simp [audit_log_subscriptions]⟩
      · split
        · exact ⟨[], by simp [audit_log_subscriptions]⟩
        · rename_i x plan hplan hne
          cases hp2 : payments_findByStripeId st ipn.token with
          | none =>
            exact ⟨[(subscriptions_create st ipn.custom_param1 ipn.custom_param2 ipn.token
              (now + plan.duration_days) now).1], by
                simp [audit_log_subscriptions, subscriptions_create_subscriptions]⟩
          | some q =>
            exact ⟨[(subscriptions_create st ipn.custom_param1 ipn.custom_param2 ipn.token
              (now + plan.duration_days) now).1], by
                simp [audit_log_subscriptions, payments_updateStatus_subscriptions,
                  subscriptions_create_subscriptions]⟩

/-- A 64-character digest different from `stubDigest` at every position. -/
def badDigest64 : String :=
  String.mk (List.replicate 64 'b')

/-- C5, counterexample.  The claim demands a 401 for every mismatched
signature of any length.  A supplied signature whose UTF-8 byte length
differs from the 64-byte digest (here `"deadbeef"`, 8 bytes) makes
`crypto.timingSafeEqual` throw; the route's try/catch absorbs the
exception and acknowledges with 200, not 401.  The no-mutation and
no-handler parts of the claim do hold on this path: the store is returned
untouched and no handler is dispatched. -/
theorem wrong_length_signature_returns_200 :
    some "deadbeef" ≠ some (stubHmac "secret" (jsonStringify exampleBody)) ∧
    webhookPost stubHmac "secret" 0 exampleBody (some "deadbeef") emptyStore
      = { httpStatus := 200, store := emptyStore, dispatched := none } := by
  decide

/-- C5, amended.  A missing signature, and a mismatched signature whose
byte length equals the computed digest's, are rejected with 401; a
signature of any other length makes the comparison throw and the endpoint
answers 200.  In all three cases the stores are untouched and no
fraud-check or grant/cancel handler runs. -/
theorem signature_rejection_behavior (hmac : String → String → String) (secret : String)
    (now : Nat) (body : Body) (sig : Option String) (st : Store) :
    (jsFalsy sig = true →
      webhookPost hmac secret now body sig st
        = { httpStatus := 401, store := st, dispatched := none }) ∧
    (∀ s, sig = some s → jsFalsy sig = false →
      s.utf8ByteSize = (hmac secret (jsonStringify body)).utf8ByteSize →
      s ≠ hmac secret (jsonStringify body) →
      webhookPost hmac secret now body sig st
        = { httpStatus := 401, store := st, dispatched := none }) ∧
    (∀ s, sig = some s → jsFalsy sig = false →
      s.utf8ByteSize ≠ (hmac secret (jsonStringify body)).utf8ByteSize →
      webhookPost hmac secret now body sig st
        = { httpStatus := 200, store := st, dispatched := none }) := by
  refine ⟨?_, ?_, ?_⟩
  · intro hf
    unfold webhookPost verifyPayoneerSignature
    simp [hf]
  · intro s hs hnf hlen hne
    subst hs
    have hbeq : (s == hmac secret (jsonStringify body)) = false :=
      beq_eq_false_iff_ne.mpr hne
    unfold webhookPost verifyPayoneerSignature
    simp [hnf, hlen, hbeq]
  · intro s hs hnf hlen
    subst hs
    unfold webhookPost verifyPayoneerSignature
    simp [hnf, hlen]

/-- C5, witness: the three rejection modes at concrete deliveries — absent
signature (401), equal-length mismatch (401), wrong-length signature
(200, the corrected part). -/
theorem signature_rejection_behavior_witness :
    webhookPost stubHmac "secret" 0 exampleBody none emptyStore
      = { httpStatus := 401, store := emptyStore, dispatched := none } ∧
    webhookPost stubHmac "secret" 0 exampleBody (some badDigest64) emptyStore
      = { httpStatus := 401, store := emptyStore, dispatched := none } ∧
    webhookPost stubHmac "secret" 0 exampleBody (some "x") emptyStore
      = { httpStatus := 200, store := emptyStore, dispatched := none } :=
  ⟨(signature_rejection_behavior stubHmac "secret" 0 exampleBody none emptyStore).1 (by decide),
   (signature_rejection_behavior stubHmac "secret" 0 exampleBody (some badDigest64)
      emptyStore).2.1 badDigest64 rfl (by decide) (by decide) (by decide),
   (signature_rejection_behavior stubHmac "secret" 0 exampleBody (some "x")
      emptyStore).2.2 "x" rfl (by decide) (by decide)⟩

/-- C6, counterexample.  The claim says the expected signature is computed
over the exact raw payload bytes with no re-serialisation.  For the
documentation's example delivery, whose raw URL-encoded body parses to
the full ordered object `exampleBody` (destructured by the handlers as
`exampleIpn`), the string the verifier MACs — `JSON.stringify` of that
parsed body, `jsonStringify` here — is not the delivered raw bytes. -/
theorem mac_input_not_raw_bytes :
    urlencodedParse exampleRawBody = exampleBody ∧
    IpnData.ofBody (urlencodedParse exampleRawBody) = exampleIpn ∧
    jsonStringify (urlencodedParse exampleRawBody) ≠ exampleRawBody := by
  decide

/-- C6, amended.  The verifier re-serialises: it MACs `JSON.stringify` of
the urlencoded-parsed body — every key, in arrival order — so the
endpoint's outcome depends on the raw bytes only through that parsed
object: two distinct raw bodies whose parses agree in keys, key order and
values verify identically (bodies differing in key order or in extra keys
parse differently and produce different MAC inputs, so no invariance is
claimed for them).  When the supplied signature is non-empty and of the
digest's byte length, the comparison is plain equality of the supplied
string with the digest of the re-serialised body. -/
theorem verification_depends_only_on_parsed_body
    (hmac : String → String → String) (secret : String) (now : Nat)
    (sig : Option String) (st : Store) (r1 r2 : String)
    (h : urlencodedParse r1 = urlencodedParse r2) :
    webhookPostRaw hmac secret now r1 sig st = webhookPostRaw hmac secret now r2 sig st ∧
    (∀ s : String, s ≠ "" →
      s.utf8ByteSize = (hmac secret (jsonStringify (urlencodedParse r1))).utf8ByteSize →
      verifyPayoneerSignature hmac secret (urlencodedParse r1) (some s)
        = Except.ok (s == hmac secret (jsonStringify (urlencodedParse r1)))) := by
  constructor
  · unfold webhookPostRaw
    rw [h]
  · intro s hs hlen
    unfold verifyPayoneerSignature
    simp [jsFalsy, hs, hlen]

/-- C6, witness: the two percent-encoding variants of the example body are
different raw byte strings with the same full parse and verify
identically; the equal-length comparison at the example body is string
equality with the digest of the re-serialised body; and the model's MAC
input keeps arrival order — the same two fields delivered in swapped
order give different MAC inputs. -/
theorem verification_depends_only_on_parsed_body_witness :
    exampleRawBody ≠ exampleRawBodyAlt ∧
    webhookPostRaw stubHmac "secret" 0 exampleRawBody (some "x") emptyStore
      = webhookPostRaw stubHmac "secret" 0 exampleRawBodyAlt (some "x") emptyStore ∧
    verifyPayoneerSignature stubHmac "secret" (urlencodedParse exampleRawBody) (some stubDigest)
      = Except.ok (stubDigest == stubHmac "secret" (jsonStringify (urlencodedParse exampleRawBody))) ∧
    jsonStringify (urlencodedParse "custom_param1=u1&status=pending")
      ≠ jsonStringify (urlencodedParse "status=pending&custom_param1=u1") :=
  ⟨by decide,
   (verification_depends_only_on_parsed_body stubHmac "secret" 0 (some "x") emptyStore
      exampleRawBody exampleRawBodyAlt (by decide)).1,
   (verification_depends_only_on_parsed_body stubHmac "secret" 0 (some "x") emptyStore
      exampleRawBody exampleRawBodyAlt (by decide)).2 stubDigest (by decide) (by decide),
   by decide⟩

/-- Database holding the active subscription `s1` (paid by `tok_0`) and
the still-pending payment attempt for `tok_1`. -/
def refundStore : Store :=
  { emptyStore with subscriptions := [activeSub], payments := [pendingPayment] }

/-- C7, counterexample.  The claim says a refund for a token whose
PaymentAttempt is pending changes no Subscription status and no
PaymentAttempt status.  A verified refund notification for the pending
token `tok_1` cancels the subscription `s1` — which it located by
userId/planId, although `s1`'s own payment token is `tok_0`, not the
notification's token — and rewrites the pending attempt to refunded. -/
theorem refund_pending_attempt_cancels_subscription :
    pendingPayment.status = "pending" ∧
    activeSub.stripe_subscription_id ≠ (IpnData.ofBody refundBody).token ∧
    ((webhookPost stubHmac "secret" 3 refundBody (some stubDigest) refundStore).store.subscriptions.map
      (fun s => s.status)) = ["canceled"] ∧
    ((webhookPost stubHmac "secret" 3 refundBody (some stubDigest) refundStore).store.payments.map
      (fun p => p.status)) = ["refunded"] := by
  decide

/-- C7, amended.  The refund handler locates a subscription by the
notification's userId and planId — the first of the user's subscriptions
whose `plan_id` matches, not the one whose payment token matches — and,
when one is found, marks it canceled regardless of the token's
PaymentAttempt status; independently, any PaymentAttempt record for the
token is set to refunded regardless of its prior status; when either
lookup finds nothing that store is left unchanged; an audit entry is
always appended, so the outcome is logged and acknowledged without
error. -/
theorem refund_handler_behavior (now : Nat) (ipn : IpnData) (st : Store) :
    (handlePaymentRefunded now ipn st).auditLog.length = st.auditLog.length + 1 ∧
    (∀ s, (subscriptions_findByUserId st ipn.custom_param1).find?
        (fun x => x.plan_id == ipn.custom_param2) = some s →
      ∃ s', s' ∈ (handlePaymentRefunded now ipn st).subscriptions ∧
        s'.id = s.id ∧ s'.status = "canceled") ∧
    ((subscriptions_findByUserId st ipn.custom_param1).find?
        (fun x => x.plan_id == ipn.custom_param2) = none →
      (handlePaymentRefunded now ipn st).subscriptions = st.subscriptions) ∧
    (∀ p, payments_findByStripeId st ipn.token = some p →
      ∃ p', p' ∈ (handlePaymentRefunded now ipn st).payments ∧
        p'.id = p.id ∧ p'.status = "refunded") ∧
    (payments_findByStripeId st ipn.token = none →
      (handlePaymentRefunded now ipn st).payments = st.payments) := by
  refine ⟨?_, ?_, ?_, ?_, ?_⟩
  · unfold handlePaymentRefunded
    cases hs : (subscriptions_findByUserId st ipn.custom_param1).find?
        (fun x => x.plan_id == ipn.custom_param2) with
    | none =>
      simp only [hs]
      cases hp2 : payments_findByStripeId st ipn.token <;>
        simp [hp2, audit_log_auditLog_length, payments_updateStatus_auditLog]
    | some s =>
      simp only [hs]
      cases hp2 : payments_findByStripeId
          (subscriptions_updateStatus st s.id "canceled" now).1 ipn.token <;>
        simp [hp2, audit_log_auditLog_length, payments_updateStatus_auditLog,
          subscriptions_updateStatus_auditLog]
  · intro s hs
    have hmem0 := List.mem_of_find?_eq_some hs
    simp only [subscriptions_findByUserId] at hmem0
    have hmem : s ∈ st.subscriptions := (List.mem_filter.mp hmem0).1
    have hfound : ((st.subscriptions.find? (fun x => x.id == s.id)).isSome) = true :=
      List.find?_isSome.mpr ⟨s, hmem, by simp⟩
    unfold handlePaymentRefunded
    simp only [hs]
    cases hp2 : payments_findByStripeId
        (subscriptions_updateStatus st s.id "canceled" now).1 ipn.token with
    | none =>
      refine ⟨setSubscriptionStatus s.id "canceled" now s, ?_,
        setSubscriptionStatus_id _ _ _ _, setSubscriptionStatus_self_status _ _ _⟩
      simp only [hp2, audit_log_subscriptions,
        subscriptions_updateStatus_subscriptions_of_found st s.id "canceled" now hfound]
      exact List.mem_map_of_mem _ hmem
    | some q =>
      refine ⟨setSubscriptionStatus s.id "canceled" now s, ?_,
        setSubscriptionStatus_id _ _ _ _, setSubscriptionStatus_self_status _ _ _⟩
      simp only [hp2, audit_log_subscriptions, payments_updateStatus_subscriptions,
        subscriptions_updateStatus_subscriptions_of_found st s.id "canceled" now hfound]
      exact List.mem_map_of_mem _ hmem
  · intro hs
    unfold handlePaymentRefunded
    simp only [hs]
    cases hp2 : payments_findByStripeId st ipn.token <;>
      simp [hp2, audit_log_subscriptions, payments_updateStatus_subscriptions]
  · intro p hp
    have hmem : p ∈ st.payments := List.mem_of_find?_eq_some hp
    unfold handlePaymentRefunded
    cases hs : (subscriptions_findByUserId st ipn.custom_param1).find?
        (fun x => x.plan_id == ipn.custom_param2) with
    | none =>
      simp only [hs, hp]
      refine ⟨setPaymentStatus p.id "refunded" now p, ?_,
        setPaymentStatus_id _ _ _ _, setPaymentStatus_self_status _ _ _⟩
      rw [audit_log_payments, payments_updateStatus_payments_of_found _ _ _ _
        (List.find?_isSome.mpr ⟨p, hmem, by simp⟩)]
      exact List.mem_map_of_mem _ hmem
    | some s =>
      have hp1 : payments_findByStripeId
          (subscriptions_updateStatus st s.id "canceled" now).1 ipn.token = some p := by
        unfold payments_findByStripeId at hp ⊢
        rw [subscriptions_updateStatus_payments]
        exact hp
      simp only [hs, hp1]
      refine ⟨setPaymentStatus p.id "refunded" now p, ?_,
        setPaymentStatus_id _ _ _ _, setPaymentStatus_self_status _ _ _⟩
      rw [audit_log_payments]
      have hfoundp : (((subscriptions_updateStatus st s.id "canceled" now).1).payments.find?
          (fun x => x.id == p.id)).isSome = true := by
        rw [subscriptions_updateStatus_payments]
        exact List.find?_isSome.mpr ⟨p, hmem, by simp⟩
      rw [payments_updateStatus_payments_of_found _ _ _ _ hfoundp,
        subscriptions_updateStatus_payments]
      exact List.mem_map_of_mem _ hmem
  · intro hp
    unfold handlePaymentRefunded
    cases hs : (subscriptions_findByUserId st ipn.custom_param1).find?
        (fun x => x.plan_id == ipn.custom_param2) with
    | none =>
      simp [hs, hp, audit_log_payments]
    | some s =>
      have hp1 : payments_findByStripeId
          (subscriptions_updateStatus st s.id "canceled" now).1 ipn.token = none := by
        unfold payments_findByStripeId at hp ⊢
        rw [subscriptions_updateStatus_payments]
        exact hp
      simp [hs, hp1, audit_log_payments, subscriptions_updateStatus_payments]

/-- C7, witness: the amended behaviour at the concrete refund delivery of
the counterexample store — the lookup by userId/planId cancels `s1` and
the pending attempt is rewritten to refunded, with one audit entry. -/
theorem refund_handler_behavior_witness :
    (handlePaymentRefunded 3 refundIpn refundStore).auditLog.length
      = refundStore.auditLog.length + 1 ∧
    (∃ s', s' ∈ (handlePaymentRefunded 3 refundIpn refundStore).subscriptions ∧
      s'.id = activeSub.id ∧ s'.status = "canceled") ∧
    (∃ p', p' ∈ (handlePaymentRefunded 3 refundIpn refundStore).payments ∧
      p'.id = pendingPayment.id ∧ p'.status = "refunded") :=
  ⟨(refund_handler_behavior 3 refundIpn refundStore).1,
   (refund_handler_behavior 3 refundIpn refundStore).2.1 activeSub (by decide),
   (refund_handler_behavior 3 refundIpn refundStore).2.2.2.1 pendingPayment (by decide)⟩

/-- Database holding a completed payment attempt for `tok_1`. -/
def completedStore : Store :=
  { emptyStore with payments := [completedPayment] }

/-- C8, counterexample.  The claim says a transition outside the allowed
set — here completed→failed — is rejected as an anomaly and leaves the
stored status unchanged.  A verified failure notification for the
completed token `tok_1` just overwrites the status: the attempt ends up
failed. -/
theorem completed_to_failed_applied :
    completedPayment.status = "completed" ∧
    ((webhookPost stubHmac "secret" 7 failedBody (some stubDigest) completedStore).store.payments.map
      (fun p => p.status)) = ["failed"] := by
  decide

/-- C8, amended.  `db.payments.updateStatus` applies any requested status
unconditionally: for every record in the store, after the update the
record with its id carries exactly the requested status when the id
matches (whatever the previous status — no transition is rejected, no
anomaly is logged) and its old status otherwise; a repeated update to the
current status rewrites the same status, leaving it unchanged. -/
theorem updateStatus_unconditional (st : Store) (pid ns : String) (now : Nat)
    (p : Payment) (hmem : p ∈ st.payments) :
    ∃ p', p' ∈ (payments_updateStatus st pid ns now).1.payments ∧ p'.id = p.id ∧
      p'.status = (if p.id == pid then ns else p.status) := by
  cases hf : st.payments.find? (fun q => q.id == pid) with
  | none =>
    have hnot : (p.id == pid) = false := by
      have := List.find?_eq_none.mp hf p hmem
      simpa using this
    refine ⟨p, ?_, rfl, by simp [hnot]⟩
    unfold payments_updateStatus
    rw [hf]
    exact hmem
  | some q =>
    refine ⟨setPaymentStatus pid ns now p, ?_, setPaymentStatus_id _ _ _ _, ?_⟩
    · unfold payments_updateStatus
      rw [hf]
      exact List.mem_map_of_mem _ hmem
    · by_cases h : (p.id == pid) = true
      · simp [setPaymentStatus, h]
      · have h' : (p.id == pid) = false := by simpa using h
        simp [setPaymentStatus, h']

/-- C8, witness: the unconditional update at the counterexample's store —
the completed record `p1` is driven to failed. -/
theorem updateStatus_unconditional_witness :
    ∃ p', p' ∈ (payments_updateStatus completedStore "p1" "failed" 7).1.payments ∧
      p'.id = completedPayment.id ∧
      p'.status = (if completedPayment.id == "p1" then "failed" else completedPayment.status) :=
  updateStatus_unconditional completedStore "p1" "failed" 7 completedPayment (by decide)

/-- C9.  The download pipeline runs its stages in the fixed middleware
order.  A request with no (or falsy) session user is answered 401 with
only the session stage executed — the subscription store and the whitelist
are never consulted; an authenticated request whose user has no active
subscription is answered 403 with only the session and subscription
stages executed — the whitelist is never consulted; and only when both
earlier stages pass does the whitelist stage run, third.  All of this
holds for every store, time, file-existence state and requested
filename. -/
theorem download_gate_ordering (st : Store) (now fileSize : Nat) (filename : String)
    (fileExists : Bool) :
    (∀ s : Option String, jsFalsy s = true →
      downloadRoute s filename fileExists fileSize now st
        = (401, [GateEv.sessionChecked], st)) ∧
    (∀ u : Option String, jsFalsy u = false →
      (subscriptions_findActiveByUserId st u now).isEmpty = true →
      downloadRoute u filename fileExists fileSize now st
        = (403, [GateEv.sessionChecked, GateEv.subscriptionChecked], st)) ∧
    (∀ u : Option String, jsFalsy u = false →
      (subscriptions_findActiveByUserId st u now).isEmpty = false →
      (downloadRoute u filename fileExists fileSize now st).2.1
        = [GateEv.sessionChecked, GateEv.subscriptionChecked, GateEv.whitelistChecked]) := by
  refine ⟨?_, ?_, ?_⟩
  · intro s hs
    unfold downloadRoute
    simp [hs]
  · intro u hu hsub
    unfold downloadRoute
    simp [hu, hsub]
  · intro u hu hsub
    unfold downloadRoute
    simp only [hu, hsub, Bool.false_eq_true, if_false]
    split
    · rfl
    · split <;> rfl

/-- C9, witness: the three orderings at concrete requests — no session
(401, one stage), session but no subscription (403, two stages), and both
passing (all three stages), against the store holding `u1`'s active
subscription. -/
theorem download_gate_ordering_witness :
    downloadRoute none "health-wellness.pdf" true 5 0 oneActiveSubStore
      = (401, [GateEv.sessionChecked], oneActiveSubStore) ∧
    downloadRoute (some "u2") "health-wellness.pdf" true 5 0 oneActiveSubStore
      = (403, [GateEv.sessionChecked, GateEv.subscriptionChecked], oneActiveSubStore) ∧
    (downloadRoute (some "u1") "health-wellness.pdf" true 5 0 oneActiveSubStore).2.1
      = [GateEv.sessionChecked, GateEv.subscriptionChecked, GateEv.whitelistChecked] :=
  ⟨(download_gate_ordering oneActiveSubStore 0 5 "health-wellness.pdf" true).1 none (by decide),
   (download_gate_ordering oneActiveSubStore 0 5 "health-wellness.pdf" true).2.1 (some "u2")
     (by decide) (by decide),
   (download_gate_ordering oneActiveSubStore 0 5 "health-wellness.pdf" true).2.2 (some "u1")
     (by decide) (by decide)⟩

/-- C10.  A correctly signed success notification missing userId, planId
or amount makes the success handler return before any store access: no
payment, subscription or audit write of any kind happens, and the
endpoint still acknowledges with 200. -/
theorem missing_fields_no_writes_ack200 (hmac : String → String → String) (secret : String)
    (now : Nat) (body : Body) (sig : Option String) (st : Store)
    (hver : verifyPayoneerSignature hmac secret body sig = Except.ok true)
    (hstatus : (IpnData.ofBody body).status = some "success" ∨
      (IpnData.ofBody body).status = some "approved")
    (hmissing : (IpnData.ofBody body).custom_param1 = none ∨
      (IpnData.ofBody body).custom_param2 = none ∨ (IpnData.ofBody body).amount = none) :
    webhookPost hmac secret now body sig st
      = { httpStatus := 200, store := st, dispatched := some "handlePaymentSucceeded" } := by
  have hnull : handlePaymentSucceeded now (IpnData.ofBody body) st = st := by
    unfold handlePaymentSucceeded
    rcases hmissing with h | h | h <;> simp [h, jsFalsy]
  unfold webhookPost
  rw [hver]
  rcases hstatus with h | h <;> simp [h, hnull]

/-- C10, witness: the example delivery with the amount field missing
against the pending-attempt store — acknowledged 200, store untouched. -/
theorem missing_fields_no_writes_ack200_witness :
    webhookPost stubHmac "secret" 0 noAmountBody (some stubDigest) pendingStore
      = { httpStatus := 200, store := pendingStore,
          dispatched := some "handlePaymentSucceeded" } :=
  missing_fields_no_writes_ack200 stubHmac "secret" 0 noAmountBody (some stubDigest)
    pendingStore rfl (Or.inl rfl) (Or.inr (Or.inr rfl))
